import Mathlib

/-!
Shallow embedding of the LVI heater integration (`climate.py`, `config_flow.py`,
`custom_components/lvi/const.py`).

Pure state-projection properties of the `LviHeater` entity are translated into
Lean functions over an explicit `Heater` snapshot structure.  Vendor calls made
by the asynchronous command handlers are modelled as the command value the
handler would transmit (an `Option`/outcome type: `none` or a dedicated
constructor means no vendor call is issued).  Python numbers appearing as
temperatures are modelled as `ℚ`; integer-compared device fields
(`power_status`, `is_heating`, `fan_speed`) as `ℤ`; Python `None`-able
attributes as `Option`.
-/

namespace Lvi

/-- String value of `homeassistant.components.climate.const.HVAC_MODE_HEAT`. -/
def HVAC_MODE_HEAT : String := "heat"

/-- String value of `homeassistant.components.climate.const.HVAC_MODE_OFF`. -/
def HVAC_MODE_OFF : String := "off"

/-- String value of `homeassistant.components.climate.const.FAN_ON`. -/
def FAN_ON : String := "on"

/-- String value of `homeassistant.components.climate.const.CURRENT_HVAC_HEAT`. -/
def CURRENT_HVAC_HEAT : String := "heating"

/-- String value of `homeassistant.components.climate.const.CURRENT_HVAC_IDLE`. -/
def CURRENT_HVAC_IDLE : String := "idle"

/-- String value of `homeassistant.const.TEMP_CELSIUS`. -/
def TEMP_CELSIUS : String := "°C"

/-- Constant `MIN_TEMP = 5` from `custom_components/lvi/const.py`. -/
def MIN_TEMP : ℚ := 5

/-- Constant `MAX_TEMP = 30` from `custom_components/lvi/const.py`. -/
def MAX_TEMP : ℚ := 30

/-- Room object attached to a heater by the vendor client; only its `name`
attribute is read by `climate.py`. -/
structure Room where
  name : String
deriving DecidableEq

/-- Heater snapshot as produced by the vendor `lvi` client: exactly the
attributes of `self._heater` that `climate.py` reads.  `room` is `Option`
because `extra_state_attributes` tests its truthiness (it may be `None`). -/
structure Heater where
  id_device : String
  nom_appareil : String
  room : Option Room
  available : Bool
  heating_up : Bool
  gv_mode : String
  consigne_confort : ℚ
  consigne_manuel : ℚ
  consigne_eco : ℚ
  consigne_boost : ℚ
  consigne_hg : ℚ
  current_temp : ℚ
  fan_speed : ℤ
  is_gen1 : Bool
  is_heating : ℤ
  power_status : ℤ
deriving DecidableEq

/-- Result of `extra_state_attributes`: the dict with keys "heating" and
"room" (the "room" key is always set, on either branch). -/
structure ExtraStateAttributes where
  heating : Bool
  room : String
deriving DecidableEq

/-- Value transmitted by `self._conn.set_heater_temp(id_device, int(temperature))`. -/
structure TempCommand where
  device : String
  value : ℤ
deriving DecidableEq

/-- Outcome of the `async_set_hvac_mode` handler.  `call d p` is the vendor
call `heater_control(d, power_status=p)`; `noop` means the handler returned
without issuing any vendor call; `unsupportedMode` is the explicit rejection
outcome named by the spec's error taxonomy (present in the vocabulary so that
the spec's claim can be stated; the code itself never produces it). -/
inductive HvacSetOutcome where
  | call (device : String) (power_status : ℤ)
  | noop
  | unsupportedMode
deriving DecidableEq

/-- Python `int()` applied to a finite number: truncation toward zero, as in
`int(temperature)` in `async_set_temperature`. -/
def truncToInt (q : ℚ) : ℤ := if 0 ≤ q then ⌊q⌋ else ⌈q⌉

namespace LviHeater

/-- Embedding of `LviHeater.name`: `self._heater.nom_appareil + '-' +
self._heater.room.name`.  The attribute access `room.name` fails (Python
`AttributeError`) when `room` is `None`, so the result is partial: `none`
models the failure. -/
def name (h : Heater) : Option String :=
  h.room.map (fun r => h.nom_appareil ++ "-" ++ r.name)

/-- Embedding of `LviHeater.extra_state_attributes`. -/
def extra_state_attributes (h : Heater) : ExtraStateAttributes :=
  { heating := h.heating_up
    room := match h.room with
      | some r => r.name
      | none => "Independent device" }

/-- Embedding of `LviHeater.temperature_unit`. -/
def temperature_unit (_ : Heater) : String := TEMP_CELSIUS

/-- Embedding of `LviHeater.target_temperature`: selects the setpoint by the
`gv_mode` code ('0' comfort, '8' manual, '3' eco, '4' boost, else
frost-protection `consigne_hg`). -/
def target_temperature (h : Heater) : ℚ :=
  if h.gv_mode = "0" then h.consigne_confort
  else if h.gv_mode = "8" then h.consigne_manuel
  else if h.gv_mode = "3" then h.consigne_eco
  else if h.gv_mode = "4" then h.consigne_boost
  else h.consigne_hg

/-- Embedding of `LviHeater.target_temperature_step`. -/
def target_temperature_step (_ : Heater) : ℚ := 1

/-- Embedding of `LviHeater.current_temperature`. -/
def current_temperature (h : Heater) : ℚ := h.current_temp

/-- Embedding of `LviHeater.fan_mode`: `FAN_ON if fan_speed != 0 else
HVAC_MODE_OFF`. -/
def fan_mode (h : Heater) : String :=
  if h.fan_speed ≠ 0 then FAN_ON else HVAC_MODE_OFF

/-- Embedding of `LviHeater.fan_modes`. -/
def fan_modes (_ : Heater) : List String := [FAN_ON, HVAC_MODE_OFF]

/-- Embedding of `LviHeater.min_temp`. -/
def min_temp (_ : Heater) : ℚ := MIN_TEMP

/-- Embedding of `LviHeater.max_temp`. -/
def max_temp (_ : Heater) : ℚ := MAX_TEMP

/-- Embedding of `LviHeater.hvac_action`: heating iff `is_gen1 or
is_heating == 1`, else idle. -/
def hvac_action (h : Heater) : String :=
  if h.is_gen1 = true ∨ h.is_heating = 1 then CURRENT_HVAC_HEAT
  else CURRENT_HVAC_IDLE

/-- Embedding of `LviHeater.hvac_mode`: heat iff `power_status == 1`, else off. -/
def hvac_mode (h : Heater) : String :=
  if h.power_status = 1 then HVAC_MODE_HEAT else HVAC_MODE_OFF

/-- Embedding of `LviHeater.hvac_modes`. -/
def hvac_modes (_ : Heater) : List String := [HVAC_MODE_HEAT, HVAC_MODE_OFF]

/-- Embedding of `LviHeater.async_set_temperature`: `kwargs.get(ATTR_TEMPERATURE)`
is the `Option ℚ` argument; `None` returns immediately (no vendor call, modelled
`none`); otherwise the vendor call `set_heater_temp(id_device, int(temperature))`
is issued with the truncated value. -/
def async_set_temperature (h : Heater) (temperature : Option ℚ) : Option TempCommand :=
  match temperature with
  | none => none
  | some t => some { device := h.id_device, value := truncToInt t }

/-- Embedding of `LviHeater.async_set_hvac_mode`: `if hvac_mode ==
HVAC_MODE_HEAT` issue `power_status=1`; `elif hvac_mode == HVAC_MODE_OFF`
issue `power_status=0`; there is no `else` branch, so any other argument
falls through and the handler returns without any action (`noop`). -/
def async_set_hvac_mode (h : Heater) (req : String) : HvacSetOutcome :=
  if req = HVAC_MODE_HEAT then HvacSetOutcome.call h.id_device 1
  else if req = HVAC_MODE_OFF then HvacSetOutcome.call h.id_device 0
  else HvacSetOutcome.noop

end LviHeater

/-- Credentials submitted in the user step of the config flow. -/
structure UserInput where
  username : String
  password : String
deriving DecidableEq

/-- Config entry created on success: `title` and the data dict fields. -/
structure ConfigEntry where
  title : String
  username : String
  password : String
deriving DecidableEq

/-- Outcome of `LviConfigFlow.async_step_user`. -/
inductive FlowResult where
  | showForm (errors : List String)
  | abortAlreadyConfigured (unique_id : String)
  | createEntry (unique_id : String) (entry : ConfigEntry)
deriving DecidableEq

/-- Embedding of Python `s.replace(" ", "")`: every space character (U+0020)
removed. -/
def stripSpaces (s : String) : String :=
  String.mk (s.data.filter (fun c => c ≠ ' '))

namespace LviConfigFlow

/-- Embedding of `LviConfigFlow.async_step_user`.  The external vendor client
and the host's duplicate-unique-id registry are opaque parameters: `connect`
receives exactly the credentials the `Lvi` client is constructed with, and
`alreadyConfigured` receives the unique id passed to `async_set_unique_id`. -/
def async_step_user (connect : String → String → Bool)
    (alreadyConfigured : String → Bool)
    (user_input : Option UserInput) : FlowResult :=
  match user_input with
  | none => FlowResult.showForm []
  | some inp =>
      let username := stripSpaces inp.username
      let password := stripSpaces inp.password
      if connect username password = false then
        FlowResult.showForm ["cannot_connect"]
      else if alreadyConfigured username then
        FlowResult.abortAlreadyConfigured username
      else
        FlowResult.createEntry username
          { title := username, username := username, password := password }

end LviConfigFlow

/-- Sample room used by concrete witnesses. -/
def sampleRoom : Room := { name := "Kitchen" }

/-- Sample heater snapshot used by concrete witnesses (manual mode, powered,
fan off, heating, generation 2). -/
def sampleHeater : Heater :=
  { id_device := "dev1"
    nom_appareil := "LVI"
    room := some sampleRoom
    available := true
    heating_up := true
    gv_mode := "8"
    consigne_confort := 21
    consigne_manuel := 19
    consigne_eco := 17
    consigne_boost := 24
    consigne_hg := 7
    current_temp := 20
    fan_speed := 0
    is_gen1 := false
    is_heating := 1
    power_status := 1 }

/-- Sample heater with no room, powered off, unknown mode code. -/
def roomlessHeater : Heater :=
  { sampleHeater with room := none, power_status := 0, gv_mode := "9", is_heating := 0 }

/-- Vendor connection stub that always succeeds (for witnesses). -/
def connectAlways : String → String → Bool := fun _ _ => true

/-- Unique-id registry stub with no existing entries (for witnesses). -/
def neverConfigured : String → Bool := fun _ => false

/-- Sample config-flow input whose credentials contain spaces. -/
def spacedInput : UserInput := { username := " a b ", password := " p w " }

/-- Claim C1: for every heater snapshot, the derived target temperature is
exactly one of the five setpoint fields, selected by the mode code (comfort
code '0' yields the comfort setpoint, manual code '8' the manual setpoint,
eco code '3' the eco setpoint, boost code '4' the boost setpoint), and any
other mode code yields the frost-protection setpoint `consigne_hg`; the
function is total on snapshots (it always returns a rational). -/
theorem targetTemperature_selects_setpoint_by_mode (h : Heater) :
    (LviHeater.target_temperature h = h.consigne_confort ∨
     LviHeater.target_temperature h = h.consigne_manuel ∨
     LviHeater.target_temperature h = h.consigne_eco ∨
     LviHeater.target_temperature h = h.consigne_boost ∨
     LviHeater.target_temperature h = h.consigne_hg)
  ∧ (h.gv_mode = "0" → LviHeater.target_temperature h = h.consigne_confort)
  ∧ (h.gv_mode = "8" → LviHeater.target_temperature h = h.consigne_manuel)
  ∧ (h.gv_mode = "3" → LviHeater.target_temperature h = h.consigne_eco)
  ∧ (h.gv_mode = "4" → LviHeater.target_temperature h = h.consigne_boost)
  ∧ (h.gv_mode ≠ "0" → h.gv_mode ≠ "8" → h.gv_mode ≠ "3" → h.gv_mode ≠ "4" →
       LviHeater.target_temperature h = h.consigne_hg) := by
  unfold LviHeater.target_temperature
  split_ifs <;> simp_all

/-- Witness for C1: the sample heater is in manual mode ('8') and its derived
target temperature is its manual setpoint. -/
theorem targetTemperature_selects_setpoint_by_mode_witness :
    sampleHeater.gv_mode = "8" ∧
    LviHeater.target_temperature sampleHeater = sampleHeater.consigne_manuel :=
  ⟨rfl, (targetTemperature_selects_setpoint_by_mode sampleHeater).2.2.1 rfl⟩

/-- Claim C4: for every snapshot, the derived hvac action is Heating iff the
device is of the legacy generation (`is_gen1`) or its heating-active signal
`is_heating` equals 1, and Idle otherwise; in particular every
legacy-generation snapshot derives Heating regardless of `is_heating`. -/
theorem hvacAction_heating_iff_gen1_or_heating (h : Heater) :
    (LviHeater.hvac_action h = CURRENT_HVAC_HEAT ↔
       (h.is_gen1 = true ∨ h.is_heating = 1))
  ∧ (h.is_gen1 = true → LviHeater.hvac_action h = CURRENT_HVAC_HEAT)
  ∧ (h.is_gen1 = false → h.is_heating ≠ 1 →
       LviHeater.hvac_action h = CURRENT_HVAC_IDLE)
  ∧ (LviHeater.hvac_action h = CURRENT_HVAC_HEAT ∨
     LviHeater.hvac_action h = CURRENT_HVAC_IDLE) := by
  unfold LviHeater.hvac_action
  split_ifs with hc
  · simp_all [CURRENT_HVAC_HEAT, CURRENT_HVAC_IDLE]
    intro hg
    cases hc with
    | inl hg1 => rw [hg] at hg1; simp at hg1
    | inr hh => exact hh
  · simp_all [CURRENT_HVAC_HEAT, CURRENT_HVAC_IDLE]

/-- Witness for C4: a legacy-generation variant of the sample heater whose
heating-active signal is 0 still derives Heating. -/
theorem hvacAction_heating_iff_gen1_or_heating_witness :
    ({ sampleHeater with is_gen1 := true, is_heating := 0 } : Heater).is_gen1 = true ∧
    LviHeater.hvac_action { sampleHeater with is_gen1 := true, is_heating := 0 } =
      CURRENT_HVAC_HEAT :=
  ⟨rfl,
   (hvacAction_heating_iff_gen1_or_heating
      { sampleHeater with is_gen1 := true, is_heating := 0 }).2.1 rfl⟩

/-- Claim C5: for every snapshot, the derived fan mode is On iff `fan_speed`
is not 0 (so `fan_speed = 0` gives Off, `fan_speed = 1` gives On, negative
`fan_speed` gives On), and the advertised list of available fan modes is
always exactly {On, Off}. -/
theorem fanMode_on_iff_speed_nonzero (h : Heater) :
    (LviHeater.fan_mode h = FAN_ON ↔ h.fan_speed ≠ 0)
  ∧ (h.fan_speed = 0 → LviHeater.fan_mode h = HVAC_MODE_OFF)
  ∧ (h.fan_speed = 1 → LviHeater.fan_mode h = FAN_ON)
  ∧ (h.fan_speed < 0 → LviHeater.fan_mode h = FAN_ON)
  ∧ (∀ m : String, m ∈ LviHeater.fan_modes h ↔ (m = FAN_ON ∨ m = HVAC_MODE_OFF)) := by
  unfold LviHeater.fan_mode LviHeater.fan_modes
  split_ifs <;> simp_all [FAN_ON, HVAC_MODE_OFF]

/-- Witness for C5: the sample heater has fan speed 0 and derives fan mode
Off; a heater with fan speed -2 derives fan mode On. -/
theorem fanMode_on_iff_speed_nonzero_witness :
    sampleHeater.fan_speed = 0 ∧
    LviHeater.fan_mode sampleHeater = HVAC_MODE_OFF ∧
    ({ sampleHeater with fan_speed := -2 } : Heater).fan_speed < 0 ∧
    LviHeater.fan_mode { sampleHeater with fan_speed := -2 } = FAN_ON :=
  ⟨rfl, (fanMode_on_iff_speed_nonzero sampleHeater).2.1 rfl, by decide,
   (fanMode_on_iff_speed_nonzero { sampleHeater with fan_speed := -2 }).2.2.2.1 (by decide)⟩

/-- Claim C7: for every snapshot, the derived room label (the "room" entry of
`extra_state_attributes`) equals the snapshot's room name when a room is
present, and equals exactly the literal "Independent device" when no room is
present. -/
theorem roomLabel_name_or_independent (h : Heater) :
    (∀ r : Room, h.room = some r → (LviHeater.extra_state_attributes h).room = r.name)
  ∧ (h.room = none → (LviHeater.extra_state_attributes h).room = "Independent device") := by
  unfold LviHeater.extra_state_attributes
  constructor
  · intro r hr
    simp [hr]
  · intro hr
    simp [hr]

/-- Witness for C7: the sample heater (room "Kitchen") has room label
"Kitchen"; the room-less heater has room label "Independent device". -/
theorem roomLabel_name_or_independent_witness :
    sampleHeater.room = some sampleRoom ∧
    (LviHeater.extra_state_attributes sampleHeater).room = "Kitchen" ∧
    roomlessHeater.room = none ∧
    (LviHeater.extra_state_attributes roomlessHeater).room = "Independent device" :=
  ⟨rfl, (roomLabel_name_or_independent sampleHeater).1 sampleRoom rfl,
   rfl, (roomLabel_name_or_independent roomlessHeater).2 rfl⟩

/-- Claim C8: for every device entity, the exposed temperature bounds are
exactly minimum 5 and maximum 30 degrees Celsius, and the target-temperature
step size is exactly 1, independent of the snapshot. -/
theorem temperature_bounds_and_step (h : Heater) :
    LviHeater.min_temp h = 5 ∧ LviHeater.max_temp h = 30 ∧
    LviHeater.target_temperature_step h = 1 ∧
    LviHeater.temperature_unit h = "°C" :=
  ⟨rfl, rfl, rfl, rfl⟩

/-- Claim C9: for every heater snapshot without a room, reading the entity's
display name fails: the `name` accessor unconditionally concatenates the
device label with `room.name` and so is undefined (`none`) on a room-less
heater, with no "Independent device" fallback applied to the name; when a
room is present it returns the concatenation. -/
theorem name_undefined_without_room (h : Heater) :
    (h.room = none → LviHeater.name h = none)
  ∧ (h.room = none → ∀ s : String, LviHeater.name h ≠ some s)
  ∧ (∀ r : Room, h.room = some r →
       LviHeater.name h = some (h.nom_appareil ++ "-" ++ r.name)) := by
  unfold LviHeater.name
  refine ⟨?_, ?_, ?_⟩
  · intro hr
    simp [hr]
  · intro hr s
    simp [hr]
  · intro r hr
    simp [hr]

/-- Witness for C9: the room-less heater's name accessor fails (returns no
string), while the sample heater's name is "LVI-Kitchen". -/
theorem name_undefined_without_room_witness :
    roomlessHeater.room = none ∧
    LviHeater.name roomlessHeater = none ∧
    LviHeater.name sampleHeater = some "LVI-Kitchen" :=
  ⟨rfl, (name_undefined_without_room roomlessHeater).1 rfl, by decide⟩

/-- Claim C2 (as stated) is false: at the concrete request "cool" (neither
Heat nor Off) the handler does not reject with an UnsupportedMode error — it
falls through its if/elif with no else branch and silently does nothing. -/
theorem setHvacMode_cool_silent_noop :
    LviHeater.async_set_hvac_mode sampleHeater "cool" = HvacSetOutcome.noop ∧
    HvacSetOutcome.noop ≠ HvacSetOutcome.unsupportedMode :=
  ⟨rfl, by decide⟩

/-- Claim C2 amended: for every requested hvac mode other than Heat or Off,
the handler silently ignores the request — it returns without signalling any
error (no UnsupportedMode rejection) and issues no vendor call, leaving state
unchanged; for Heat it issues power_status=1 and for Off it issues
power_status=0. -/
theorem setHvacMode_unsupported_is_silent (h : Heater) (m : String)
    (hm1 : m ≠ HVAC_MODE_HEAT) (hm2 : m ≠ HVAC_MODE_OFF) :
    LviHeater.async_set_hvac_mode h m = HvacSetOutcome.noop
  ∧ (∀ d p, LviHeater.async_set_hvac_mode h m ≠ HvacSetOutcome.call d p)
  ∧ LviHeater.async_set_hvac_mode h m ≠ HvacSetOutcome.unsupportedMode
  ∧ LviHeater.async_set_hvac_mode h HVAC_MODE_HEAT = HvacSetOutcome.call h.id_device 1
  ∧ LviHeater.async_set_hvac_mode h HVAC_MODE_OFF = HvacSetOutcome.call h.id_device 0 := by
  unfold LviHeater.async_set_hvac_mode
  refine ⟨?_, ?_, ?_, ?_, ?_⟩
  · simp [hm1, hm2]
  · intro d p
    simp [hm1, hm2]
  · simp [hm1, hm2]
  · simp
  · simp [HVAC_MODE_HEAT, HVAC_MODE_OFF]

/-- Witness for the amended C2: requesting "cool" on the sample heater is a
silent no-op. -/
theorem setHvacMode_unsupported_is_silent_witness :
    ("cool" : String) ≠ HVAC_MODE_HEAT ∧ ("cool" : String) ≠ HVAC_MODE_OFF ∧
    LviHeater.async_set_hvac_mode sampleHeater "cool" = HvacSetOutcome.noop :=
  ⟨by decide, by decide,
   (setHvacMode_unsupported_is_silent sampleHeater "cool" (by decide) (by decide)).1⟩

/-- Claim C3: on the two supported values, building a power command is the
exact inverse of deriving the hvac mode: a snapshot with power_status = 1
derives Heat and requesting Heat writes power_status = 1; a snapshot with
power_status ≠ 1 derives Off and requesting Off writes power_status = 0; so
the command built from the derived mode carries back 1 exactly when
power_status = 1 (round-trip in both directions). -/
theorem powerCommand_inverse_of_hvacMode (h : Heater) :
    (h.power_status = 1 → LviHeater.hvac_mode h = HVAC_MODE_HEAT)
  ∧ (h.power_status ≠ 1 → LviHeater.hvac_mode h = HVAC_MODE_OFF)
  ∧ LviHeater.async_set_hvac_mode h HVAC_MODE_HEAT = HvacSetOutcome.call h.id_device 1
  ∧ LviHeater.async_set_hvac_mode h HVAC_MODE_OFF = HvacSetOutcome.call h.id_device 0
  ∧ (h.power_status = 1 →
       LviHeater.async_set_hvac_mode h (LviHeater.hvac_mode h) =
         HvacSetOutcome.call h.id_device 1)
  ∧ (h.power_status ≠ 1 →
       LviHeater.async_set_hvac_mode h (LviHeater.hvac_mode h) =
         HvacSetOutcome.call h.id_device 0) := by
  unfold LviHeater.hvac_mode LviHeater.async_set_hvac_mode
  split_ifs <;> simp_all [HVAC_MODE_HEAT, HVAC_MODE_OFF]

/-- Witness for C3: the powered sample heater derives Heat; the powered-off
room-less heater derives Off and the command rebuilt from its derived mode
writes power_status 0. -/
theorem powerCommand_inverse_of_hvacMode_witness :
    sampleHeater.power_status = 1 ∧
    LviHeater.hvac_mode sampleHeater = HVAC_MODE_HEAT ∧
    roomlessHeater.power_status ≠ 1 ∧
    LviHeater.hvac_mode roomlessHeater = HVAC_MODE_OFF ∧
    LviHeater.async_set_hvac_mode roomlessHeater (LviHeater.hvac_mode roomlessHeater) =
      HvacSetOutcome.call roomlessHeater.id_device 0 :=
  ⟨rfl, (powerCommand_inverse_of_hvacMode sampleHeater).1 rfl, by decide,
   (powerCommand_inverse_of_hvacMode roomlessHeater).2.1 (by decide),
   (powerCommand_inverse_of_hvacMode roomlessHeater).2.2.2.2.2 (by decide)⟩

/-- Truncation toward zero floors the magnitude: the integer produced by
Python `int()` has absolute value ⌊|t|⌋. -/
theorem truncToInt_abs (t : ℚ) : |truncToInt t| = ⌊|t|⌋ := by
  unfold truncToInt
  split_ifs with h0
  · rw [abs_of_nonneg h0]
    exact abs_of_nonneg (Int.floor_nonneg.mpr h0)
  · push_neg at h0
    rw [abs_of_neg h0, abs_of_nonpos (Int.ceil_le.mpr (by exact_mod_cast h0.le)),
      Int.floor_neg]

/-- Claim C6: for every temperature-set request, if no temperature value is
supplied the operation is a no-op (no vendor call); if a temperature is
supplied, the value transmitted to the vendor is that number truncated
toward zero to an integer (floor for nonnegative input, ceiling for negative
input, magnitude always ⌊|t|⌋). -/
theorem setTemperature_noop_or_truncates (h : Heater) (t : ℚ) :
    LviHeater.async_set_temperature h none = none
  ∧ LviHeater.async_set_temperature h (some t) =
      some { device := h.id_device, value := truncToInt t }
  ∧ |truncToInt t| = ⌊|t|⌋
  ∧ (0 ≤ t → truncToInt t = ⌊t⌋)
  ∧ (t < 0 → truncToInt t = ⌈t⌉) := by
  refine ⟨rfl, rfl, truncToInt_abs t, ?_, ?_⟩
  · intro ht
    simp [truncToInt, ht]
  · intro ht
    simp [truncToInt, not_le.mpr ht]

/-- Witness for C6: a missing value is a no-op; 19 transmits as 19; the
negative value -7/2 transmits as its ceiling -3 (truncation toward zero). -/
theorem setTemperature_noop_or_truncates_witness :
    LviHeater.async_set_temperature sampleHeater none = none ∧
    (0:ℚ) ≤ 19 ∧ truncToInt 19 = ⌊(19:ℚ)⌋ ∧
    (-7/2 : ℚ) < 0 ∧ truncToInt (-7/2) = ⌈(-7/2 : ℚ)⌉ ∧
    truncToInt (-7/2) = -3 :=
  ⟨(setTemperature_noop_or_truncates sampleHeater 19).1, by norm_num,
   (setTemperature_noop_or_truncates sampleHeater 19).2.2.2.1 (by norm_num),
   by norm_num,
   (setTemperature_noop_or_truncates sampleHeater (-7/2)).2.2.2.2 (by norm_num),
   by norm_num [truncToInt, Int.ceil_neg]⟩

/-- Claim C10: for every submitted credential pair, every space character is
removed from both the username and the password before the connection
attempt, and on success the created entry's unique id and title both equal
the space-stripped username; the flow's outcome depends only on the stripped
credentials, so two usernames differing only in spaces (" a b " vs "ab")
collide on the same unique id. -/
theorem configFlow_strips_spaces (connect : String → String → Bool)
    (alreadyConfigured : String → Bool) (inp : UserInput)
    (hc : connect (stripSpaces inp.username) (stripSpaces inp.password) = true)
    (ha : alreadyConfigured (stripSpaces inp.username) = false) :
    LviConfigFlow.async_step_user connect alreadyConfigured (some inp) =
      FlowResult.createEntry (stripSpaces inp.username)
        { title := stripSpaces inp.username
          username := stripSpaces inp.username
          password := stripSpaces inp.password }
  ∧ (∀ inp2 : UserInput,
       stripSpaces inp2.username = stripSpaces inp.username →
       stripSpaces inp2.password = stripSpaces inp.password →
       LviConfigFlow.async_step_user connect alreadyConfigured (some inp2) =
         LviConfigFlow.async_step_user connect alreadyConfigured (some inp))
  ∧ stripSpaces " a b " = stripSpaces "ab"
  ∧ (" a b " : String) ≠ "ab" := by
  refine ⟨?_, ?_, by decide, by decide⟩
  · simp [LviConfigFlow.async_step_user, hc, ha]
  · intro inp2 hu hp
    simp [LviConfigFlow.async_step_user, hu, hp]

/-- Witness for C10: the spaced credentials " a b " / " p w " connect, are
not yet configured, and produce an entry whose unique id, title and stored
username are all the stripped "ab". -/
theorem configFlow_strips_spaces_witness :
    connectAlways (stripSpaces spacedInput.username) (stripSpaces spacedInput.password) = true ∧
    neverConfigured (stripSpaces spacedInput.username) = false ∧
    LviConfigFlow.async_step_user connectAlways neverConfigured (some spacedInput) =
      FlowResult.createEntry "ab" { title := "ab", username := "ab", password := "pw" } :=
  ⟨rfl, rfl, by
    rw [(configFlow_strips_spaces connectAlways neverConfigured spacedInput rfl rfl).1]
    decide⟩

end Lvi
